import Mathlib

/-!
Verification of the budgetBuddy backend core: token lifecycle (`auth.py`),
access gating and per-user CRUD routes (`main.py`), and the AI context
assembly path (`ai_assistant.py`), shallowly embedded in Lean.
-/

namespace BudgetBuddy

/-! ## JWT payloads (Python dicts used as token claims) -/

/-- A value stored in a JWT claim dictionary: either a number (user ids,
epoch-second timestamps) or a string. -/
inductive JWTVal where
  | vNat : Nat → JWTVal
  | vStr : String → JWTVal
deriving DecidableEq

/-- A Python dict used as a JWT payload, as an association list. -/
abbrev Payload := List (String × JWTVal)

/-- `d.get(k)`: first binding of key `k`, if any. -/
def lookupKey (p : Payload) (k : String) : Option JWTVal :=
  match p with
  | [] => none
  | (k', v) :: rest => if k' = k then some v else lookupKey rest k

/-- `d.update({k: v})`: overwrite the binding in place if the key exists,
else append it (Python dict insertion-order semantics). -/
def setKey (p : Payload) (k : String) (v : JWTVal) : Payload :=
  match p with
  | [] => [(k, v)]
  | (k', v') :: rest =>
      if k' = k then (k, v) :: rest else (k', v') :: setKey rest k v

theorem lookupKey_setKey_self (p : Payload) (k : String) (v : JWTVal) :
    lookupKey (setKey p k v) k = some v := by
  induction p with
  | nil => simp [setKey, lookupKey]
  | cons hd tl ih =>
      by_cases h : hd.1 = k
      · simp [setKey, h, lookupKey]
      · simp [setKey, h, lookupKey, ih]

theorem lookupKey_setKey_ne (p : Payload) (k k' : String) (v : JWTVal)
    (hne : k ≠ k') : lookupKey (setKey p k v) k' = lookupKey p k' := by
  induction p with
  | nil => simp [setKey, lookupKey, hne]
  | cons hd tl ih =>
      by_cases h : hd.1 = k
      · simp [setKey, h, lookupKey, hne]
      · simp [setKey, h, lookupKey, ih]

/-! ## Token Service (`auth.py`) -/

/-- Environment configuration read at startup: `JWT_SECRET` and
`JWT_EXPIRE_MINUTES` (`JWT_ALGORITHM` is fixed by the signing model). -/
structure AuthConfig where
  secret : String
  expireMinutes : Nat
deriving DecidableEq

/-- A structurally well-formed JWT: a payload plus a signature. The
signature is modelled as the (secret, payload) pair it was computed over,
so "the signature verifies" is equality with `(secret, payload)`. -/
structure Token where
  payload : Payload
  sig : String × Payload
deriving DecidableEq

/-- `jwt.encode(payload, secret, algorithm)`. -/
def jwt_encode (p : Payload) (secret : String) : Token :=
  ⟨p, (secret, p)⟩

/-- The input to `decode_token` is an arbitrary string: either it parses
as a structurally valid JWT or it is malformed. -/
inductive TokenInput where
  | wellFormed : Token → TokenInput
  | malformed : String → TokenInput
deriving DecidableEq

/-- The distinct failure causes `jwt.decode` can raise. -/
inductive DecodeError where
  | malformedToken
  | badSignature
  | expired
deriving DecidableEq

/-- `jwt.decode(token, secret, algorithms)`: verifies the signature, then
(only when an `exp` claim is present, per python-jose) checks that it has
not passed; raises the corresponding error otherwise. -/
def jose_decode (inp : TokenInput) (secret : String) (now : Nat) :
    Except DecodeError Payload :=
  match inp with
  | .malformed _ => .error .malformedToken
  | .wellFormed t =>
      if t.sig = (secret, t.payload) then
        match lookupKey t.payload "exp" with
        | some (.vNat exp) =>
            if exp < now then .error .expired else .ok t.payload
        | some (.vStr _) => .error .malformedToken
        | none => .ok t.payload
      else .error .badSignature

/-- `decode_token` (auth.py:43-53): `try: return jwt.decode(...) except:
return None` — every failure cause collapses to `None`. -/
def decode_token (inp : TokenInput) (secret : String) (now : Nat) :
    Option Payload :=
  match jose_decode inp secret now with
  | .ok p => some p
  | .error _ => none

/-- `create_access_token` (auth.py:31-41): copy the claim dict, add
`exp = now + JWT_EXPIRE_MINUTES`, sign. -/
def create_access_token (cfg : AuthConfig) (data : Payload) (now : Nat) :
    Token :=
  let to_encode := data
  let expire := now + cfg.expireMinutes * 60
  let to_encode := setKey to_encode "exp" (.vNat expire)
  jwt_encode to_encode cfg.secret

/-! ## Claims C3 and C5 -/

/-- C3: Uniform token-validation failure. For every input, `decode_token`
either returns the embedded payload — exactly when the input is a
well-formed token whose signature verifies and whose `exp` claim (when
present) has not passed — or returns `None`; every one of the three
failure causes (malformed, bad signature, expired) yields the same
generic `None`, and the function is total (never raises). -/
theorem decode_token_uniform_failure (inp : TokenInput) (secret : String)
    (now : Nat) :
    (decode_token inp secret now = none ∨
      ∃ t, inp = .wellFormed t ∧ t.sig = (secret, t.payload) ∧
        decode_token inp secret now = some t.payload) ∧
    (∀ e, jose_decode inp secret now = .error e →
      decode_token inp secret now = none) ∧
    (∀ p, jose_decode inp secret now = .ok p →
      decode_token inp secret now = some p ∧
      ∃ t, inp = .wellFormed t ∧ t.sig = (secret, t.payload)) := by
  refine ⟨?_, ?_, ?_⟩
  · cases h : jose_decode inp secret now with
    | error e => left; simp [decode_token, h]
    | ok p =>
        right
        cases inp with
        | malformed s => simp [jose_decode] at h
        | wellFormed t =>
            refine ⟨t, rfl, ?_, ?_⟩
            · by_contra hsig
              simp [jose_decode, hsig] at h
            · by_cases hsig : t.sig = (secret, t.payload)
              · have hp : p = t.payload := by
                  simp only [jose_decode, hsig, if_true] at h
                  cases hk : lookupKey t.payload "exp" with
                  | none => simp [hk] at h; exact h.symm
                  | some v =>
                      cases v with
                      | vNat exp =>
                          by_cases he : exp < now
                          · simp [hk, he] at h
                          · simp [hk, he] at h; exact h.symm
                      | vStr s => simp [hk] at h
                simp [decode_token, h, hp]
              · simp [jose_decode, hsig] at h
  · intro e he
    simp [decode_token, he]
  · intro p hp
    refine ⟨by simp [decode_token, hp], ?_⟩
    cases inp with
    | malformed s => simp [jose_decode] at hp
    | wellFormed t =>
        refine ⟨t, rfl, ?_⟩
        by_contra hsig
        simp [jose_decode, hsig] at hp

/-- Witness for C3: a token with a bad signature decodes to `none`. -/
theorem decode_token_uniform_failure_witness :
    decode_token (.wellFormed ⟨[("user_id", .vNat 1)], ("wrong", [])⟩)
      "secret" 0 = none :=
  (decode_token_uniform_failure
      (.wellFormed ⟨[("user_id", .vNat 1)], ("wrong", [])⟩) "secret" 0).2.1
    .badSignature rfl

/-- C5: Token round trip and expiry. A token issued at `t0` over any
claim dictionary, validated at any `t1` before the configured lifetime
has elapsed, yields a payload from which the embedded `user_id` is
recovered unchanged; the same token validated at any `t2` after the
lifetime has elapsed yields the invalid result `None`. -/
theorem token_round_trip (cfg : AuthConfig) (claim : Payload)
    (t0 t1 t2 : Nat) (h1 : t1 < t0 + cfg.expireMinutes * 60)
    (h2 : t0 + cfg.expireMinutes * 60 < t2) :
    (∃ p, decode_token (.wellFormed (create_access_token cfg claim t0))
        cfg.secret t1 = some p ∧
      lookupKey p "user_id" = lookupKey claim "user_id") ∧
    decode_token (.wellFormed (create_access_token cfg claim t0))
        cfg.secret t2 = none := by
  have hexp : lookupKey (setKey claim "exp"
      (.vNat (t0 + cfg.expireMinutes * 60))) "exp" =
      some (.vNat (t0 + cfg.expireMinutes * 60)) :=
    lookupKey_setKey_self claim "exp" _
  constructor
  · refine ⟨setKey claim "exp" (.vNat (t0 + cfg.expireMinutes * 60)),
      ?_, ?_⟩
    · simp [decode_token, jose_decode, create_access_token, jwt_encode,
        hexp, Nat.not_lt.mpr (Nat.le_of_lt h1)]
    · exact lookupKey_setKey_ne claim "exp" "user_id" _ (by decide)
  · simp [decode_token, jose_decode, create_access_token, jwt_encode,
      hexp, h2]

/-- Witness for C5: a concrete claim round-trips at minute 1 and is
invalid at minute 31 with a 30-minute lifetime. -/
theorem token_round_trip_witness :
    (∃ p, decode_token
        (.wellFormed (create_access_token ⟨"s", 30⟩
          [("user_id", .vNat 7)] 100)) "s" 160 = some p ∧
      lookupKey p "user_id" =
        lookupKey [("user_id", .vNat 7)] "user_id") ∧
    decode_token (.wellFormed (create_access_token ⟨"s", 30⟩
        [("user_id", .vNat 7)] 100)) "s" 2000 = none :=
  token_round_trip ⟨"s", 30⟩ [("user_id", .vNat 7)] 100 160 2000
    (by decide) (by decide)

/-! ## Users and the access-control gate (`main.py`) -/

/-- A row of the `user` table (prisma schema fields used by `main.py`). -/
structure User where
  id : Nat
  username : String
  email : String
  phoneNumber : String
  password : String
deriving DecidableEq

/-- `db.user.find_unique(where={"id": uid})` with `uid` the value of
`payload.get("user_id")`. -/
def find_unique_user (users : List User) (uid : Option JWTVal) :
    Option User :=
  users.find? (fun u => uid = some (.vNat u.id))

/-- Outcome of the `get_current_user` dependency: the resolved user, or
an `HTTPException(status, detail)`. -/
inductive AuthResult where
  | ok : User → AuthResult
  | httpError : Nat → String → AuthResult
deriving DecidableEq

/-- `get_current_user` (main.py:39-46): decode the token; `if not
payload` (None or an empty/falsy dict) raise 401 "Invalid token"; look
the user up by the embedded `user_id`; if absent raise 401 "User not
found"; else return the user. -/
def get_current_user (users : List User) (cfg : AuthConfig) (now : Nat)
    (inp : TokenInput) : AuthResult :=
  match decode_token inp cfg.secret now with
  | none => .httpError 401 "Invalid token"
  | some payload =>
      if payload.isEmpty then .httpError 401 "Invalid token"
      else
        match find_unique_user users (lookupKey payload "user_id") with
        | none => .httpError 401 "User not found"
        | some u => .ok u

/-! ## Claim C4 -/

/-- C4 counterexample: a well-formed token signed over the empty payload
with the correct secret. Token validation succeeds (`decode_token`
returns the payload), no user exists, yet the gate rejects with detail
"Invalid token", not "User not found": `if not payload` treats the
falsy-but-valid empty claim as an invalid token. -/
theorem get_current_user_empty_payload_cx :
    decode_token (.wellFormed ⟨[], ("s", [])⟩) "s" 0 = some [] ∧
    get_current_user [] ⟨"s", 30⟩ 0 (.wellFormed ⟨[], ("s", [])⟩) =
      .httpError 401 "Invalid token" ∧
    get_current_user [] ⟨"s", 30⟩ 0 (.wellFormed ⟨[], ("s", [])⟩) ≠
      .httpError 401 "User not found" := by
  refine ⟨rfl, rfl, ?_⟩
  decide

/-- C4 (amended): the gate rejects with 401 "Invalid token" whenever
token validation returns the invalid result, and also when the validated
payload is empty (falsy); on a valid non-empty claim it looks the user
up by the embedded identifier, rejects with 401 "User not found" when no
such user exists, and otherwise returns the resolved user. -/
theorem get_current_user_resolution (users : List User)
    (cfg : AuthConfig) (now : Nat) (inp : TokenInput) :
    (decode_token inp cfg.secret now = none →
      get_current_user users cfg now inp = .httpError 401 "Invalid token") ∧
    (decode_token inp cfg.secret now = some [] →
      get_current_user users cfg now inp = .httpError 401 "Invalid token") ∧
    (∀ payload, decode_token inp cfg.secret now = some payload →
      payload ≠ [] →
      (find_unique_user users (lookupKey payload "user_id") = none →
        get_current_user users cfg now inp =
          .httpError 401 "User not found") ∧
      (∀ u, find_unique_user users (lookupKey payload "user_id") = some u →
        get_current_user users cfg now inp = .ok u)) := by
  refine ⟨?_, ?_, ?_⟩
  · intro h; simp [get_current_user, h]
  · intro h; simp [get_current_user, h]
  · intro payload hdec hne
    constructor
    · intro hfind
      simp [get_current_user, hdec, List.isEmpty_iff, hne, hfind]
    · intro u hfind
      simp [get_current_user, hdec, List.isEmpty_iff, hne, hfind]

/-- Witness for C4: a token for user 7 resolves to the stored user 7. -/
theorem get_current_user_resolution_witness :
    get_current_user [⟨7, "mia", "m@x.com", "555", "h"⟩] ⟨"s", 30⟩ 50
      (.wellFormed (create_access_token ⟨"s", 30⟩
        [("user_id", .vNat 7)] 0)) =
      .ok ⟨7, "mia", "m@x.com", "555", "h"⟩ :=
  ((get_current_user_resolution [⟨7, "mia", "m@x.com", "555", "h"⟩]
      ⟨"s", 30⟩ 50 (.wellFormed (create_access_token ⟨"s", 30⟩
        [("user_id", .vNat 7)] 0))).2.2
    [("user_id", .vNat 7), ("exp", .vNat 1800)] (by decide) (by decide)).2
    ⟨7, "mia", "m@x.com", "555", "h"⟩ (by decide)

/-! ## Login (`main.py` /login) and claim C9 -/

/-- Outcome of the `/login` route: `{access_token, token_type}` or an
`HTTPException(status, detail)`. -/
inductive LoginResult where
  | ok : Token → String → LoginResult
  | httpError : Nat → String → LoginResult
deriving DecidableEq

/-- `login` (main.py:84-101). `verify` abstracts
`verify_password`/bcrypt. `if not username or not password` catches both
absent and empty-string credentials. -/
def login (verify : String → String → Bool) (cfg : AuthConfig)
    (users : List User) (now : Nat) (username password : Option String) :
    LoginResult :=
  if username.getD "" = "" ∨ password.getD "" = "" then
    .httpError 400 "Username and password are required."
  else
    match users.find? (fun u => u.username == username.getD "") with
    | none => .httpError 401 "Invalid credentials"
    | some u =>
        if verify (password.getD "") u.password then
          .ok (create_access_token cfg [("user_id", .vNat u.id)] now)
            "bearer"
        else .httpError 401 "Invalid credentials"

/-- C9: Login rejection is cause-indistinguishable. An unknown username
and a known username with a non-verifying password both produce exactly
`401 "Invalid credentials"`; consequently any two such failing attempts
(possibly against different stores and verifiers) yield the identical
observable response. -/
theorem login_failure_indistinguishable (verify : String → String → Bool)
    (cfg : AuthConfig) (users : List User) (now : Nat) (un pw : String)
    (hun : un ≠ "") (hpw : pw ≠ "") :
    (users.find? (fun u => u.username == un) = none →
      login verify cfg users now (some un) (some pw) =
        .httpError 401 "Invalid credentials") ∧
    (∀ u, users.find? (fun u => u.username == un) = some u →
      verify pw u.password = false →
      login verify cfg users now (some un) (some pw) =
        .httpError 401 "Invalid credentials") ∧
    (∀ (verify2 : String → String → Bool) (cfg2 : AuthConfig)
      (users2 : List User) (now2 : Nat) (un2 pw2 : String)
      (u2 : User), un2 ≠ "" → pw2 ≠ "" →
      users.find? (fun u => u.username == un) = none →
      users2.find? (fun u => u.username == un2) = some u2 →
      verify2 pw2 u2.password = false →
      login verify cfg users now (some un) (some pw) =
        login verify2 cfg2 users2 now2 (some un2) (some pw2)) := by
  refine ⟨?_, ?_, ?_⟩
  · intro hfind
    simp [login, hun, hpw, hfind]
  · intro u hfind hverify
    simp [login, hun, hpw, hfind, hverify]
  · intro verify2 cfg2 users2 now2 un2 pw2 u2 hun2 hpw2 hnone hsome hv2
    simp [login, hun, hpw, hun2, hpw2, hnone, hsome, hv2]

/-- Witness for C9: a wrong-password attempt and an unknown-username
attempt both observe `401 "Invalid credentials"`. -/
theorem login_failure_indistinguishable_witness :
    login (fun p h => p == h) ⟨"s", 30⟩
      [⟨1, "mia", "m@x.com", "555", "hash1"⟩] 0
      (some "mia") (some "wrongpw") =
      .httpError 401 "Invalid credentials" :=
  (login_failure_indistinguishable (fun p h => p == h) ⟨"s", 30⟩
      [⟨1, "mia", "m@x.com", "555", "hash1"⟩] 0 "mia" "wrongpw"
      (by decide) (by decide)).2.1
    ⟨1, "mia", "m@x.com", "555", "hash1"⟩ (by decide) (by decide)

/-! ## User data repository (`main.py` CRUD routes) -/

/-- Request body of `/add_expense`; every field is read with
`body.get(...)` so each may be absent. `client_user_id` stands for any
client-supplied identity in the body — the route never reads it. -/
structure ExpenseBody where
  category : Option String
  amount : Option Int
  note : Option String
  recurring : Option Bool
  client_user_id : Option Nat
deriving DecidableEq

/-- A row of the `expense` table. -/
structure Expense where
  userId : Nat
  category : Option String
  amount : Option Int
  note : Option String
  recurring : Option Bool
deriving DecidableEq

/-- The row `db.expense.create` persists for resolved user `uid`: the
body fields verbatim, `userId` taken from the token-resolved user. -/
def expenseRow (uid : Nat) (b : ExpenseBody) : Expense :=
  ⟨uid, b.category, b.amount, b.note, b.recurring⟩

/-- Outcome of a creator route. -/
inductive CreateExpenseResult where
  | ok : List Expense → CreateExpenseResult
  | httpError : Nat → String → CreateExpenseResult
deriving DecidableEq

/-- `add_expense` (main.py:104-128): takes `userId` from
`current_user.id` (never from the body), rejects a falsy user id, and
otherwise persists one row without checking any body field. -/
def add_expense (body : ExpenseBody) (current_user : User)
    (db : List Expense) : CreateExpenseResult :=
  let user_id := current_user.id
  if user_id = 0 then .httpError 400 "User ID not found in token."
  else .ok (db ++ [expenseRow user_id body])

/-- `db.expense.find_many(where={"userId": uid})`. -/
def find_many_expenses (db : List Expense) (uid : Nat) : List Expense :=
  db.filter (fun e => e.userId == uid)

/-- `get_expenses` (main.py:188-194), success path: rows filtered on the
resolved caller's id. -/
def get_expenses (current_user : User) (db : List Expense) :
    List Expense :=
  find_many_expenses db current_user.id

/-- Request body of `/add_savings_jar`. -/
structure JarBody where
  name : Option String
  goal : Option Int
  description : Option String
  progress : Option Int
deriving DecidableEq

/-- A row of the `savingsjar` table. -/
structure SavingsJar where
  userId : Nat
  name : Option String
  goal : Option Int
  description : Option String
  progress : Option Int
deriving DecidableEq

/-- `add_savings_jar` (main.py:131-150), success path: persists one row
attributed to `current_user.id` with no field validation at all. -/
def add_savings_jar (body : JarBody) (current_user : User)
    (db : List SavingsJar) : List SavingsJar :=
  db ++ [⟨current_user.id, body.name, body.goal, body.description,
    body.progress⟩]

/-- `get_savings_jars` (main.py:197-203), success path. -/
def get_savings_jars (current_user : User) (db : List SavingsJar) :
    List SavingsJar :=
  db.filter (fun j => j.userId == current_user.id)

/-- Request body of `/add_reminder`. -/
structure ReminderBody where
  name : Option String
  amount : Option Int
  due_date : Option String
deriving DecidableEq

/-- A row of the `reminder` table; `dueDate` holds the parsed ISO
timestamp. -/
structure Reminder where
  userId : Nat
  name : Option String
  amount : Option Int
  dueDate : String
deriving DecidableEq

/-- Gregorian leap-year rule used by `datetime`. -/
def leapYear (y : Nat) : Bool :=
  (y % 4 == 0 && y % 100 != 0) || y % 400 == 0

/-- Days in month `m` of year `y`, as `datetime` validates them. -/
def daysInMonth (y m : Nat) : Nat :=
  if m == 2 then (if leapYear y then 29 else 28)
  else if m == 4 || m == 6 || m == 9 || m == 11 then 30
  else 31

/-- Numeric value of a digit character. -/
def digitVal (c : Char) : Nat := c.toNat - '0'.toNat

/-- Whether `datetime.fromisoformat(s + "T00:00:00")` succeeds: `s` must
be exactly `YYYY-MM-DD` with a calendar-valid year (≥ 1), month and
day. -/
def valid_iso_date (s : String) : Bool :=
  match s.data with
  | [y1, y2, y3, y4, h1, m1, m2, h2, d1, d2] =>
      y1.isDigit && y2.isDigit && y3.isDigit && y4.isDigit &&
      h1 == '-' && h2 == '-' &&
      m1.isDigit && m2.isDigit && d1.isDigit && d2.isDigit &&
      (let y := ((digitVal y1 * 10 + digitVal y2) * 10 + digitVal y3)
          * 10 + digitVal y4
       let m := digitVal m1 * 10 + digitVal m2
       let d := digitVal d1 * 10 + digitVal d2
       decide (1 ≤ y) && decide (1 ≤ m) && decide (m ≤ 12) &&
       decide (1 ≤ d) && decide (d ≤ daysInMonth y m))
  | _ => false

/-- Outcome of `/add_reminder`: success, an `HTTPException`, or an
exception that escapes the handler (the `TypeError` from
`None + "T00:00:00"`, which `except ValueError` does not catch). -/
inductive CreateReminderResult where
  | ok : List Reminder → CreateReminderResult
  | httpError : Nat → String → CreateReminderResult
  | uncaughtTypeError : CreateReminderResult
deriving DecidableEq

/-- `add_reminder` (main.py:153-176): when `due_date` is absent,
`due_date_str + "T00:00:00"` raises `TypeError`, which the
`except ValueError` guard does not catch; a present but malformed date
raises `ValueError`, converted to 400 "Invalid date format"; a valid
date is persisted as a full timestamp, attributed to
`current_user.id`. `name` and `amount` are never checked. -/
def add_reminder (body : ReminderBody) (current_user : User)
    (db : List Reminder) : CreateReminderResult :=
  match body.due_date with
  | none => .uncaughtTypeError
  | some s =>
      if valid_iso_date s then
        .ok (db ++ [⟨current_user.id, body.name, body.amount,
          s ++ "T00:00:00"⟩])
      else .httpError 400 "Invalid date format"

/-- `get_reminders` (main.py:179-185), success path. -/
def get_reminders (current_user : User) (db : List Reminder) :
    List Reminder :=
  db.filter (fun r => r.userId == current_user.id)

/-- Replay a sequence of authenticated `/add_expense` calls, each
already resolved to its calling user. -/
def runCreates (ops : List (User × ExpenseBody)) (db : List Expense) :
    List Expense :=
  match ops with
  | [] => db
  | (u, b) :: rest =>
      match add_expense b u db with
      | .ok db' => runCreates rest db'
      | .httpError _ _ => runCreates rest db

theorem get_expenses_runCreates (u : User)
    (ops : List (User × ExpenseBody)) (db : List Expense)
    (hops : ∀ op ∈ ops, op.1.id ≠ 0) :
    get_expenses u (runCreates ops db) =
      get_expenses u db ++
        (ops.filter (fun op => op.1.id == u.id)).map
          (fun op => expenseRow op.1.id op.2) := by
  induction ops generalizing db with
  | nil => simp [runCreates]
  | cons op rest ih =>
      obtain ⟨v, b⟩ := op
      have hv : v.id ≠ 0 := hops (v, b) (List.mem_cons_self _ _)
      have hrest : ∀ op ∈ rest, op.1.id ≠ 0 :=
        fun op hop => hops op (List.mem_cons_of_mem _ hop)
      have hstep : runCreates ((v, b) :: rest) db =
          runCreates rest (db ++ [expenseRow v.id b]) := by
        simp [runCreates, add_expense, hv]
      rw [hstep, ih _ hrest]
      by_cases hvu : v.id = u.id
      · simp [get_expenses, find_many_expenses, List.filter_append,
          expenseRow, hvu, List.filter_cons]
      · simp [get_expenses, find_many_expenses, List.filter_append,
          expenseRow, hvu, List.filter_cons]

/-! ## Claim C1 -/

/-- C1: Per-user data isolation. Over any interleaved sequence of
expense creations by two distinct users A and B (with valid, distinct
ids), `get_expenses A` returns exactly the rows created by A, in order —
so its length is A's creation count N and no row of B's appears. In
general, every row any list operation returns carries the caller's
resolved id, and every creator attributes its single new row to the
resolved user, ignoring any client-supplied identity in the body. -/
theorem per_user_data_isolation (A B : User) (hAB : A.id ≠ B.id)
    (hA : A.id ≠ 0) (hB : B.id ≠ 0)
    (ops : List (User × ExpenseBody))
    (hops : ∀ op ∈ ops, op.1 = A ∨ op.1 = B) :
    get_expenses A (runCreates ops []) =
      (ops.filter (fun op => op.1.id == A.id)).map
        (fun op => expenseRow op.1.id op.2) ∧
    (get_expenses A (runCreates ops [])).length =
      (ops.filter (fun op => op.1.id == A.id)).length ∧
    (∀ e ∈ get_expenses A (runCreates ops []),
      e.userId = A.id ∧ e.userId ≠ B.id) ∧
    (∀ (u : User) (db : List Expense), ∀ e ∈ get_expenses u db,
      e.userId = u.id) ∧
    (∀ (u : User) (db : List SavingsJar), ∀ j ∈ get_savings_jars u db,
      j.userId = u.id) ∧
    (∀ (u : User) (db : List Reminder), ∀ r ∈ get_reminders u db,
      r.userId = u.id) ∧
    (∀ (b : ExpenseBody) (u : User) (db db' : List Expense),
      add_expense b u db = .ok db' → db' = db ++ [expenseRow u.id b]) ∧
    (∀ (b : JarBody) (u : User) (db : List SavingsJar),
      ∀ j ∈ add_savings_jar b u db, j ∈ db ∨ j.userId = u.id) ∧
    (∀ (b : ReminderBody) (u : User) (db db' : List Reminder),
      add_reminder b u db = .ok db' →
      ∀ r ∈ db', r ∈ db ∨ r.userId = u.id) := by
  have hops0 : ∀ op ∈ ops, op.1.id ≠ 0 := by
    intro op hop
    rcases hops op hop with h | h
    · rw [h]; exact hA
    · rw [h]; exact hB
  have hmain := get_expenses_runCreates A ops [] hops0
  rw [show get_expenses A [] = [] from rfl, List.nil_append] at hmain
  refine ⟨hmain, ?_, ?_, ?_, ?_, ?_, ?_, ?_, ?_⟩
  · rw [hmain, List.length_map]
  · intro e he
    rw [hmain] at he
    obtain ⟨op, hopmem, hrow⟩ := List.mem_map.mp he
    have hfilt := List.mem_filter.mp hopmem
    have hid : op.1.id = A.id := by simpa using hfilt.2
    constructor
    · rw [← hrow, expenseRow, hid]
    · rw [← hrow, expenseRow, hid]; exact hAB
  · intro u db e he
    have := (List.mem_filter.mp he).2
    simpa using this
  · intro u db j hj
    have := (List.mem_filter.mp hj).2
    simpa using this
  · intro u db r hr
    have := (List.mem_filter.mp hr).2
    simpa using this
  · intro b u db db' h
    by_cases hu : u.id = 0
    · simp [add_expense, hu] at h
    · simp [add_expense, hu] at h
      exact h.symm
  · intro b u db j hj
    rw [add_savings_jar] at hj
    rcases List.mem_append.mp hj with h | h
    · exact Or.inl h
    · right
      simp at h
      rw [h]
  · intro b u db db' h r hr
    cases hd : b.due_date with
    | none => simp [add_reminder, hd] at h
    | some s =>
        by_cases hv : valid_iso_date s = true
        · simp [add_reminder, hd, hv] at h
          rw [← h] at hr
          rcases List.mem_append.mp hr with hmem | hmem
          · exact Or.inl hmem
          · right
            simp at hmem
            rw [hmem]
        · simp [add_reminder, hd, hv] at h

/-- Witness for C1: users 1 and 2 create three expenses interleaved;
user 1's listing returns exactly their two rows. -/
theorem per_user_data_isolation_witness :
    get_expenses ⟨1, "a", "a@x", "1", "ha"⟩
      (runCreates
        [(⟨1, "a", "a@x", "1", "ha"⟩,
            ⟨some "Food", some 12, some "lunch", some false, none⟩),
         (⟨2, "b", "b@x", "2", "hb"⟩,
            ⟨some "Rent", some 900, none, some true, some 1⟩),
         (⟨1, "a", "a@x", "1", "ha"⟩,
            ⟨some "Gas", some 30, none, some false, some 2⟩)] []) =
      [⟨1, some "Food", some 12, some "lunch", some false⟩,
       ⟨1, some "Gas", some 30, none, some false⟩] :=
  ((per_user_data_isolation ⟨1, "a", "a@x", "1", "ha"⟩
      ⟨2, "b", "b@x", "2", "hb"⟩ (by decide) (by decide) (by decide)
      [(⟨1, "a", "a@x", "1", "ha"⟩,
          ⟨some "Food", some 12, some "lunch", some false, none⟩),
       (⟨2, "b", "b@x", "2", "hb"⟩,
          ⟨some "Rent", some 900, none, some true, some 1⟩),
       (⟨1, "a", "a@x", "1", "ha"⟩,
          ⟨some "Gas", some 30, none, some false, some 2⟩)]
      (by decide)).1).trans (by decide)

/-! ## Claim C6 -/

/-- Whether a creator outcome is a `ValidationError`: a client-caused
400 rejection with a human-readable reason. -/
def CreateReminderResult.isValidationError : CreateReminderResult → Bool
  | .httpError 400 _ => true
  | _ => false

/-- C6 counterexample: with the due date absent, `/add_reminder` does
not fail with a `ValidationError` — the `None + "T00:00:00"` TypeError
escapes the `except ValueError` guard; and `/add_expense` persists a row
even when every body field is absent, so creators do not validate that
required fields are present. -/
theorem creator_validation_cx :
    add_reminder ⟨some "electricity", some 50, none⟩
      ⟨1, "a", "a@x", "1", "ha"⟩ [] = .uncaughtTypeError ∧
    (add_reminder ⟨some "electricity", some 50, none⟩
      ⟨1, "a", "a@x", "1", "ha"⟩ []).isValidationError = false ∧
    add_expense ⟨none, none, none, none, none⟩
      ⟨1, "a", "a@x", "1", "ha"⟩ [] =
      .ok [⟨1, none, none, none, none⟩] := by
  refine ⟨rfl, rfl, rfl⟩

/-- C6 (amended): creators persist whatever fields were supplied without
presence checks (`add_expense` checks only the token-resolved user id;
`add_savings_jar` checks nothing); `add_reminder` parses the due date
from an ISO calendar date into a full timestamp and fails with 400
"Invalid date format" when the date string is present but malformed,
while an absent due date raises an uncaught TypeError (a server fault,
not a ValidationError). -/
theorem creator_validation_behavior (body : ReminderBody) (u : User)
    (db : List Reminder) :
    (body.due_date = none →
      add_reminder body u db = .uncaughtTypeError) ∧
    (∀ s, body.due_date = some s → valid_iso_date s = false →
      add_reminder body u db = .httpError 400 "Invalid date format") ∧
    (∀ s, body.due_date = some s → valid_iso_date s = true →
      add_reminder body u db =
        .ok (db ++ [⟨u.id, body.name, body.amount, s ++ "T00:00:00"⟩])) ∧
    (∀ (eb : ExpenseBody) (edb : List Expense), u.id ≠ 0 →
      add_expense eb u edb = .ok (edb ++ [expenseRow u.id eb])) ∧
    (∀ (jb : JarBody) (jdb : List SavingsJar),
      add_savings_jar jb u jdb =
        jdb ++ [⟨u.id, jb.name, jb.goal, jb.description,
          jb.progress⟩]) := by
  refine ⟨?_, ?_, ?_, ?_, ?_⟩
  · intro h; simp [add_reminder, h]
  · intro s hs hv; simp [add_reminder, hs, hv]
  · intro s hs hv; simp [add_reminder, hs, hv]
  · intro eb edb hu; simp [add_expense, hu]
  · intro jb jdb; rfl

/-- Witness for C6: February 30th is rejected as a malformed date with
the 400 detail, and a well-formed date on a leap day is persisted. -/
theorem creator_validation_behavior_witness :
    add_reminder ⟨some "rent", some 100, some "2024-02-30"⟩
      ⟨1, "a", "a@x", "1", "ha"⟩ [] =
      .httpError 400 "Invalid date format" ∧
    add_reminder ⟨some "rent", some 100, some "2024-02-29"⟩
      ⟨1, "a", "a@x", "1", "ha"⟩ [] =
      .ok [⟨1, some "rent", some 100, "2024-02-29T00:00:00"⟩] :=
  ⟨(creator_validation_behavior
      ⟨some "rent", some 100, some "2024-02-30"⟩
      ⟨1, "a", "a@x", "1", "ha"⟩ []).2.1 "2024-02-30" rfl (by decide),
   ((creator_validation_behavior
      ⟨some "rent", some 100, some "2024-02-29"⟩
      ⟨1, "a", "a@x", "1", "ha"⟩ []).2.2.1 "2024-02-29" rfl
      (by decide)).trans (by decide)⟩

/-! ## Context assembler and assistant gateway (`ai_assistant.py`) -/

/-- Failure of one HTTP fetch against the backend: the
`requests.exceptions.RequestException` branch or the generic unexpected
branch — both print and return `None`. -/
inductive FetchError where
  | requestException : String → FetchError
  | otherError : String → FetchError
deriving DecidableEq

/-- One fetched collection, each row as its serialized (JSON/dict-repr)
text. -/
abbrev Rows := List String

/-- `get_user_data` (ai_assistant.py:20-60): three sequential fetches;
if any raises, the whole assembly returns `None` — no partial
dictionary of the successful categories is ever produced. -/
def get_user_data (fe fs fr : Except FetchError Rows) :
    Option (Rows × Rows × Rows) :=
  match fe with
  | .error _ => none
  | .ok expenses =>
      match fs with
      | .error _ => none
      | .ok savings_jars =>
          match fr with
          | .error _ => none
          | .ok reminders => some (expenses, savings_jars, reminders)

/-- Python's repr of a list of rows: `[row, row, ...]`. -/
def pyListRepr (rows : Rows) : String :=
  "[" ++ String.intercalate ", " rows ++ "]"

/-- The context block built at ai_assistant.py:80-84. -/
def buildContext (expenses savings_jars reminders : Rows) : String :=
  "User Information: \n" ++
  "Expenses: " ++ pyListRepr expenses ++ "\n" ++
  "Savings Jars: " ++ pyListRepr savings_jars ++ "\n" ++
  "Reminders: " ++ pyListRepr reminders ++ "\n" ++
  "Please use this information to respond to the user's query.\n"

/-- `generate_ai_response` (ai_assistant.py:62-102): on missing user
data return the fallback apology; otherwise submit
`context + "User Query: " + prompt` to the model (`llm` abstracts the
chat-completions call, whose failure carries `str(e)`) and return either
the model's answer or `"An error occurred: " + str(e)`. -/
def generate_ai_response (llm : String → Except String String)
    (fe fs fr : Except FetchError Rows) (user_prompt : String) :
    String :=
  match get_user_data fe fs fr with
  | none => "Sorry, I couldn't retrieve your data."
  | some (expenses, savings_jars, reminders) =>
      let context := buildContext expenses savings_jars reminders
      let full_prompt := context ++ "User Query: " ++ user_prompt
      match llm full_prompt with
      | .ok answer => answer
      | .error e => "An error occurred: " ++ e

/-- `s` contains `pat` as a contiguous substring. -/
def StrContains (s pat : String) : Prop :=
  ∃ a b, s = a ++ pat ++ b

/-! ## Claims C2, C8, C7 -/

/-- C2: All-or-nothing context assembly. If any one of the three
underlying fetches fails, `get_user_data` returns `None` — no partial
dictionary of the successful categories — and the assistant path returns
the literal fallback string instead of raising. -/
theorem assembler_all_or_nothing (llm : String → Except String String)
    (fe fs fr : Except FetchError Rows) (q : String)
    (h : (∃ m, fe = .error m) ∨ (∃ m, fs = .error m) ∨
      (∃ m, fr = .error m)) :
    get_user_data fe fs fr = none ∧
    generate_ai_response llm fe fs fr q =
      "Sorry, I couldn't retrieve your data." := by
  have hnone : get_user_data fe fs fr = none := by
    rcases h with ⟨m, rfl⟩ | ⟨m, rfl⟩ | ⟨m, rfl⟩
    · rfl
    · cases fe <;> rfl
    · cases fe <;> cases fs <;> rfl
  exact ⟨hnone, by simp [generate_ai_response, hnone]⟩

/-- Witness for C2: the reminders fetch fails while expenses and jars
succeed; the whole assembly fails and the fallback string is returned. -/
theorem assembler_all_or_nothing_witness :
    get_user_data (.ok ["row1"]) (.ok [])
      (.error (.requestException "500 Server Error")) = none ∧
    generate_ai_response (fun _ => .ok "unused") (.ok ["row1"]) (.ok [])
      (.error (.requestException "500 Server Error")) "how am I doing?" =
      "Sorry, I couldn't retrieve your data." :=
  assembler_all_or_nothing (fun _ => .ok "unused") (.ok ["row1"])
    (.ok []) (.error (.requestException "500 Server Error"))
    "how am I doing?"
    (Or.inr (Or.inr ⟨.requestException "500 Server Error", rfl⟩))

/-- C8: Context block shape. For every successful fetch triple the
context contains the three labeled headings and the grounding
instruction line; with all three categories empty it is exactly the
block with headings and no data rows; and on the success path the
assistant submits precisely this context concatenated (via the
"User Query: " tag) with the literal user query. -/
theorem context_block_shape (e s r : Rows) :
    StrContains (buildContext e s r) "Expenses:" ∧
    StrContains (buildContext e s r) "Savings Jars:" ∧
    StrContains (buildContext e s r) "Reminders:" ∧
    StrContains (buildContext e s r)
      "Please use this information to respond to the user's query." ∧
    buildContext [] [] [] =
      "User Information: \nExpenses: []\nSavings Jars: []\nReminders: []\nPlease use this information to respond to the user's query.\n" ∧
    (∀ (llm : String → Except String String) (q ans : String),
      llm (buildContext e s r ++ "User Query: " ++ q) = .ok ans →
      generate_ai_response llm (.ok e) (.ok s) (.ok r) q = ans) := by
  refine ⟨?_, ?_, ?_, ?_, by decide, ?_⟩
  · refine ⟨"User Information: \n",
      " " ++ pyListRepr e ++ "\n" ++ "Savings Jars: " ++ pyListRepr s ++
        "\n" ++ "Reminders: " ++ pyListRepr r ++ "\n" ++
        "Please use this information to respond to the user's query.\n",
      ?_⟩
    simp only [buildContext, String.append_assoc]
    rw [show ("Expenses: " : String) = "Expenses:" ++ " " from by
      decide, String.append_assoc]
  · refine ⟨"User Information: \n" ++ "Expenses: " ++ pyListRepr e ++
      "\n",
      " " ++ pyListRepr s ++ "\n" ++ "Reminders: " ++ pyListRepr r ++
        "\n" ++
        "Please use this information to respond to the user's query.\n",
      ?_⟩
    simp only [buildContext, String.append_assoc]
    rw [show ("Savings Jars: " : String) = "Savings Jars:" ++ " " from
      by decide, String.append_assoc]
  · refine ⟨"User Information: \n" ++ "Expenses: " ++ pyListRepr e ++
      "\n" ++ "Savings Jars: " ++ pyListRepr s ++ "\n",
      " " ++ pyListRepr r ++ "\n" ++
        "Please use this information to respond to the user's query.\n",
      ?_⟩
    simp only [buildContext, String.append_assoc]
    rw [show ("Reminders: " : String) = "Reminders:" ++ " " from by
      decide, String.append_assoc]
  · refine ⟨"User Information: \n" ++ "Expenses: " ++ pyListRepr e ++
      "\n" ++ "Savings Jars: " ++ pyListRepr s ++ "\n" ++
      "Reminders: " ++ pyListRepr r ++ "\n", "\n", ?_⟩
    rw [buildContext, show
      ("Please use this information to respond to the user's query.\n" :
        String) =
      "Please use this information to respond to the user's query." ++
        "\n" from by decide]
    simp [String.append_assoc]
  · intro llm q ans hllm
    simp [generate_ai_response, get_user_data, buildContext] at hllm ⊢
    simp [hllm]

/-- Witness for C8: with empty data and a model echoing a fixed answer,
the success path returns the model's answer for the submitted prompt. -/
theorem context_block_shape_witness :
    generate_ai_response (fun _ => .ok "You spent nothing.") (.ok [])
      (.ok []) (.ok []) "how much did I spend?" = "You spent nothing." :=
  (context_block_shape [] [] []).2.2.2.2.2
    (fun _ => .ok "You spent nothing.") "how much did I spend?"
    "You spent nothing." rfl

/-- C7 counterexample: when the model call fails with exception text
"boom", the assistant returns "An error occurred: boom" — the internal
exception text IS echoed verbatim inside the returned string, refuting
the claim that it never is. -/
theorem assistant_error_echo_cx :
    generate_ai_response (fun _ => .error "boom") (.ok []) (.ok [])
      (.ok []) "q" = "An error occurred: boom" ∧
    StrContains (generate_ai_response (fun _ => .error "boom") (.ok [])
      (.ok []) (.ok []) "q") "boom" :=
  ⟨rfl, "An error occurred: ", "", by decide⟩

/-- C7 (amended): every failure of the outbound model call is caught
and converted into the string `"An error occurred: " ++ str(e)` — the
assistant path always returns a string and never raises past the
gateway, but the internal exception text is embedded verbatim in that
returned message rather than suppressed. -/
theorem assistant_catches_model_failure
    (llm : String → Except String String) (e s r : Rows)
    (q msg : String)
    (hllm : llm (buildContext e s r ++ "User Query: " ++ q) =
      .error msg) :
    generate_ai_response llm (.ok e) (.ok s) (.ok r) q =
      "An error occurred: " ++ msg ∧
    StrContains (generate_ai_response llm (.ok e) (.ok s) (.ok r) q)
      msg := by
  have hres : generate_ai_response llm (.ok e) (.ok s) (.ok r) q =
      "An error occurred: " ++ msg := by
    simp [generate_ai_response, get_user_data, buildContext] at hllm ⊢
    simp [hllm]
  refine ⟨hres, "An error occurred: ", "", ?_⟩
  rw [hres, String.append_empty]

/-- Witness for C7 (amended): a concrete quota failure is converted to
the prefixed message, never an exception. -/
theorem assistant_catches_model_failure_witness :
    generate_ai_response (fun _ => .error "RateLimitError") (.ok [])
      (.ok []) (.ok []) "hi" = "An error occurred: RateLimitError" :=
  (assistant_catches_model_failure (fun _ => .error "RateLimitError")
    [] [] [] "hi" "RateLimitError" rfl).1

/-! ## Claim C10: a heap model of `create_access_token`'s frame -/

/-- A heap of Python dict objects; an address is an index. -/
structure Heap where
  objs : List Payload
deriving DecidableEq

/-- Dereference an address (absent addresses read as the empty dict). -/
def heapGet (h : Heap) (a : Nat) : Payload := h.objs.getD a []

/-- Allocate a fresh object, returning its address. -/
def heapAlloc (h : Heap) (d : Payload) : Nat × Heap :=
  (h.objs.length, ⟨h.objs ++ [d]⟩)

/-- Overwrite the object at an address. -/
def heapSet (h : Heap) (a : Nat) (d : Payload) : Heap :=
  ⟨h.objs.set a d⟩

/-- `data.copy()`: allocate a fresh dict with the same entries. -/
def dict_copy (h : Heap) (a : Nat) : Nat × Heap :=
  heapAlloc h (heapGet h a)

/-- `create_access_token` (auth.py:31-41) with object mutation made
explicit: `to_encode = data.copy()` allocates a fresh dict;
`to_encode.update({"exp": expire})` mutates only that fresh dict; the
result is the signed token and the final heap. -/
def create_access_token_heap (cfg : AuthConfig) (h : Heap)
    (dataAddr : Nat) (now : Nat) : Token × Heap :=
  let copied := dict_copy h dataAddr
  let to_encode := copied.1
  let h1 := copied.2
  let expire := now + cfg.expireMinutes * 60
  let h2 := heapSet h1 to_encode
    (setKey (heapGet h1 to_encode) "exp" (.vNat expire))
  (jwt_encode (heapGet h2 to_encode) cfg.secret, h2)

theorem list_set_append_last {α : Type} (l : List α) (d d' : α) :
    (l ++ [d]).set l.length d' = l ++ [d'] := by
  induction l with
  | nil => rfl
  | cons hd tl ih => simp [List.set, ih]

theorem list_getD_append {α : Type} (l l' : List α) (d : α) (n : Nat)
    (hn : n < l.length) : (l ++ l').getD n d = l.getD n d := by
  induction l generalizing n with
  | nil => simp at hn
  | cons hd tl ih =>
      cases n with
      | zero => rfl
      | succ m =>
          simp only [List.cons_append, List.getD_cons_succ]
          exact ih m (by simpa using hn)

theorem list_getD_append_last {α : Type} (l : List α) (d x : α) :
    (l ++ [x]).getD l.length d = x := by
  induction l with
  | nil => rfl
  | cons hd tl ih => simp

/-- C10: Token issuance does not mutate its argument. For every heap and
every live claim-dict address, the caller's dict is identical before and
after `create_access_token`: the expiry is added only to the internal
copy. Moreover the issued token is exactly the pure
`create_access_token` of the original claim. -/
theorem create_access_token_frame (cfg : AuthConfig) (h : Heap)
    (a now : Nat) (ha : a < h.objs.length) :
    heapGet (create_access_token_heap cfg h a now).2 a = heapGet h a ∧
    (create_access_token_heap cfg h a now).1 =
      create_access_token cfg (heapGet h a) now := by
  have hcopy : heapGet ⟨h.objs ++ [heapGet h a]⟩ h.objs.length =
      heapGet h a := by
    simp [heapGet, list_getD_append_last]
  have hset : (heapSet ⟨h.objs ++ [heapGet h a]⟩ h.objs.length
      (setKey (heapGet h a) "exp"
        (.vNat (now + cfg.expireMinutes * 60)))).objs =
      h.objs ++ [setKey (heapGet h a) "exp"
        (.vNat (now + cfg.expireMinutes * 60))] := by
    simp [heapSet, list_set_append_last]
  constructor
  · show heapGet (heapSet ⟨h.objs ++ [heapGet h a]⟩ h.objs.length
      (setKey (heapGet ⟨h.objs ++ [heapGet h a]⟩ h.objs.length) "exp"
        (.vNat (now + cfg.expireMinutes * 60)))) a = heapGet h a
    rw [hcopy]
    rw [show heapGet (heapSet ⟨h.objs ++ [heapGet h a]⟩ h.objs.length
        (setKey (heapGet h a) "exp"
          (.vNat (now + cfg.expireMinutes * 60)))) a =
        ((h.objs ++ [setKey (heapGet h a) "exp"
          (.vNat (now + cfg.expireMinutes * 60))]).getD a []) from by
      rw [heapGet, hset]]
    rw [list_getD_append _ _ _ _ ha]
    rfl
  · show jwt_encode (heapGet (heapSet ⟨h.objs ++ [heapGet h a]⟩
        h.objs.length (setKey (heapGet ⟨h.objs ++ [heapGet h a]⟩
          h.objs.length) "exp"
          (.vNat (now + cfg.expireMinutes * 60)))) h.objs.length)
        cfg.secret = _
    rw [hcopy]
    rw [show heapGet (heapSet ⟨h.objs ++ [heapGet h a]⟩ h.objs.length
        (setKey (heapGet h a) "exp"
          (.vNat (now + cfg.expireMinutes * 60)))) h.objs.length =
        ((h.objs ++ [setKey (heapGet h a) "exp"
          (.vNat (now + cfg.expireMinutes * 60))]).getD
            h.objs.length []) from by
      rw [heapGet, hset]]
    rw [list_getD_append_last]
    rfl

/-- Witness for C10: a one-object heap holding the claim dict for user
7; after issuance the dict at address 0 still has no "exp" entry. -/
theorem create_access_token_frame_witness :
    heapGet (create_access_token_heap ⟨"s", 30⟩
      ⟨[[("user_id", .vNat 7)]]⟩ 0 100).2 0 = [("user_id", .vNat 7)] ∧
    (create_access_token_heap ⟨"s", 30⟩
      ⟨[[("user_id", .vNat 7)]]⟩ 0 100).1 =
      create_access_token ⟨"s", 30⟩ [("user_id", .vNat 7)] 100 :=
  ⟨((create_access_token_frame ⟨"s", 30⟩ ⟨[[("user_id", .vNat 7)]]⟩ 0
      100 (by decide)).1).trans (by decide),
   (create_access_token_frame ⟨"s", 30⟩ ⟨[[("user_id", .vNat 7)]]⟩ 0
      100 (by decide)).2⟩

end BudgetBuddy
